import Mathlib

/-!
Tensor value serialization bindings

A shallow embedding of
`tensorflow_federated/cc/core/impl/executors/serialization_bindings.cc`:
the `type_caster<tensorflow::Tensor>` (`load`, `cast`) and the two functions
bound in the module `serialization_bindings`.

Functions of TensorFlow and of the Python C API that the file calls are taken
as parameters (`TensorFlowApi`); the Python error indicator and the error log
are explicit state (`Interpreter`). The codec behind `SerializeTensorValue`
and `DeserializeTensorValue` is declared in `tensor_serialization.h`, which is
not among the sources; it is modelled from the specification in the second
part of the file.
-/

namespace tensorflow

/-- Status of absl and TensorFlow: a numeric code, 0 being OK, and a message. -/
structure Status where
  code : Nat
  message : String
deriving DecidableEq, Repr

/-- Method `ok()` of a status. -/
def Status.ok (s : Status) : Bool := s.code == 0

/-- The OK status. -/
def OkStatus : Status := ⟨0, ""⟩

/-- One element of a tensor buffer, as a bit pattern: the bits of a fixed-width
element (read as an unsigned number), or the bytes of a string element. -/
inductive Element where
  | scalar (bits : Nat)
  | bytes (data : List Nat)
deriving DecidableEq, Repr

/-- Method `num_elements()` of a `TensorShape`: the product of the dimension
sizes, 1 for rank 0. -/
def num_elements (shape : List Nat) : Nat := shape.prod

/-- The class `tensorflow::Tensor`: element type tag, shape, flat buffer. -/
structure Tensor where
  dtype : Nat
  shape : List Nat
  buf : List Element
deriving DecidableEq, Repr

/-- Enumerator `DT_FLOAT`, the element type of a default-constructed tensor. -/
def DT_FLOAT : Nat := 1

/-- The default constructor `Tensor()`: a float tensor of shape `[0]`. -/
instance : Inhabited Tensor := ⟨⟨DT_FLOAT, [0], []⟩⟩

/-- Method `NumElements()` of a tensor, which is `shape().num_elements()`. -/
def Tensor.NumElements (t : Tensor) : Nat := num_elements t.shape

/-- Method `Tensor::CopyFrom(other, shape)` of TensorFlow (`tensor.h`, library
code): returns false and leaves the receiver alone when `other` does not have
as many elements as `shape`; otherwise the receiver takes the element type and
buffer of `other` with the given shape, and the call returns true. The pair is
the returned flag and the receiver afterwards. -/
def Tensor.CopyFrom (self other : Tensor) (shape : List Nat) : Bool × Tensor :=
  if other.NumElements != num_elements shape then (false, self)
  else (true, { dtype := other.dtype, shape := shape, buf := other.buf })

/-- The C struct `TF_Tensor`, the tensor of the C API that `NdarrayToTensor`
produces. -/
structure TF_Tensor where
  dtype : Nat
  dims : List Nat
  data : List Element
deriving DecidableEq, Repr

end tensorflow

namespace python

/-- A host array: what a `PyObject*` handed to the caster points to. -/
structure PyObject where
  dtype : Nat
  shape : List Nat
  raw_buffer : List tensorflow.Element
deriving DecidableEq, Repr

/-- A pybind11 `handle`: a possibly null `PyObject*`. -/
abbrev handle := Option PyObject

/-- A pending Python exception: its type and message. -/
structure PyException where
  type : String
  message : String
deriving DecidableEq, Repr

/-- The state the bridge reads and writes besides its arguments: the Python
error indicator (what `PyErr_Occurred` reads and `PyErr_SetString` writes) and
what was written with `LOG(ERROR)`, most recent last. -/
structure Interpreter where
  pyErr : Option PyException
  errorLog : List tensorflow.Status
deriving DecidableEq, Repr

/-- Call `PyErr_Occurred()`: whether a Python error is pending. -/
def PyErr_Occurred (st : Interpreter) : Bool := st.pyErr.isSome

/-- Call `PyErr_SetString(type, message)`: replaces the error indicator. -/
def PyErr_SetString (type message : String) (st : Interpreter) : Interpreter :=
  { st with pyErr := some ⟨type, message⟩ }

/-- Statement `LOG(ERROR) << status`. -/
def LOG_ERROR (status : tensorflow.Status) (st : Interpreter) : Interpreter :=
  { st with errorLog := st.errorLog ++ [status] }

end python

namespace tensorflow

open python

/-- The three conversions of TensorFlow the caster calls. Each returns its
status together with what it left in its output argument; the two that work on
Python objects also take and return the Python error indicator.

* `NdarrayToTensor src out err`: `out` is the `Safe_TF_TensorPtr` before the
  call (null in `load`).
* `TF_TensorToTensor src dst`: `dst` is the destination tensor before the call.
* `TensorToNdarray tensor out err`: `out` is `result` before the call (null in
  `cast`). -/
structure TensorFlowApi where
  NdarrayToTensor : handle → Option TF_Tensor → Option PyException →
    Status × Option TF_Tensor × Option PyException
  TF_TensorToTensor : Option TF_Tensor → Tensor → Status × Tensor
  TensorToNdarray : Tensor → handle → Option PyException →
    Status × handle × Option PyException

end tensorflow

namespace pybind11.detail

open tensorflow python

/-- Member `type_caster<tensorflow::Tensor>::load(src, convert)`. The argument
`value` is the caster's stored tensor before the call; the result is the
returned flag, the stored tensor afterwards and the interpreter state
afterwards. -/
def load (api : TensorFlowApi) (value : Tensor) (src : handle) (st : Interpreter) :
    Bool × Tensor × Interpreter :=
  let tf_tensor_ptr : Option TF_Tensor := none
  let (status, tf_tensor_ptr, err) := api.NdarrayToTensor src tf_tensor_ptr st.pyErr
  let st := { st with pyErr := err }
  if !status.ok then
    (false, value, LOG_ERROR status st)
  else
    let tensor : Tensor := default
    let (status, tensor) := api.TF_TensorToTensor tf_tensor_ptr tensor
    if !status.ok then
      (false, value, LOG_ERROR status st)
    else if PyErr_Occurred st then
      (false, value, st)
    else
      let (copied, value) := value.CopyFrom tensor tensor.shape
      (copied, value, st)

/-- Member `type_caster<tensorflow::Tensor>::cast(tensor, policy, parent)`: the
returned handle and the interpreter state afterwards. -/
def cast (api : TensorFlowApi) (tensor : Tensor) (st : Interpreter) :
    handle × Interpreter :=
  let result : handle := none
  let (status, result, err) := api.TensorToNdarray tensor result st.pyErr
  let st := { st with pyErr := err }
  if !status.ok then
    (none, PyErr_SetString "ValueError" "Failed to create np.ndarray" st)
  else
    (result, st)

end pybind11.detail

namespace tensorflow_federated

open tensorflow python

namespace v0

/-- Modelled from the spec: the message `v0::Value` (`executor.proto` is not
among the sources), as the WireValue of the specification: a Dtype tag, the
encoded shape and the payload bytes. -/
structure Value where
  dtype : Nat
  shape : List Nat
  payload : List Nat
deriving DecidableEq, Repr

/-- A default-constructed message: every field empty. -/
instance : Inhabited Value := ⟨⟨0, [], []⟩⟩

end v0

/-- The two functions declared in `tensor_serialization.h` that the module
binds. `SerializeTensorValue tensor value_pb` returns its status and the value
left behind `value_pb`; `DeserializeTensorValue` returns a tensor or a non-OK
status (`absl::StatusOr`). -/
structure TensorSerialization where
  SerializeTensorValue : Tensor → v0.Value → Status × v0.Value
  DeserializeTensorValue : v0.Value → Except Status Tensor

/-- Modelled from the spec: `TFF_TRY` of `status_macros.h`, which is not among
the sources. The enclosing function returns early with the status when it is
not OK ("every sub-codec failure is surfaced verbatim") and continues
otherwise. -/
def TFF_TRY {α : Type} (status : Status) (rest : Unit → Except Status α) :
    Except Status α :=
  if !status.ok then .error status else rest ()

/-- The function bound as `serialize_tensor_value`: the lambda of the module
definition, over the codec it calls. -/
def serialize_tensor_value (codec : TensorSerialization) (tensor : Tensor) :
    Except Status v0.Value :=
  let value_pb : v0.Value := default
  let (status, value_pb) := codec.SerializeTensorValue tensor value_pb
  TFF_TRY status fun _ => .ok value_pb

/-- The function bound as `deserialize_tensor_value`: `&DeserializeTensorValue`
itself. -/
def deserialize_tensor_value (codec : TensorSerialization) (value_pb : v0.Value) :
    Except Status Tensor :=
  codec.DeserializeTensorValue value_pb

/-- Decidable equality of `Except`, to evaluate results. -/
instance instDecidableEqExcept {ε α : Type} [DecidableEq ε] [DecidableEq α] :
    DecidableEq (Except ε α)
  | .ok a, .ok b =>
    if h : a = b then isTrue (by rw [h]) else isFalse (by intro h2; cases h2; exact h rfl)
  | .error a, .error b =>
    if h : a = b then isTrue (by rw [h]) else isFalse (by intro h2; cases h2; exact h rfl)
  | .ok _, .error _ => isFalse (by intro h; cases h)
  | .error _, .ok _ => isFalse (by intro h; cases h)

/-- The default constructor of `v0::Value` run on a storage: the message it
leaves there is the default-constructed one, whatever the storage held. -/
def v0.Value.construct (_storage : v0.Value) : v0.Value := default

/-- One call of the bound `serialize_tensor_value` as a step on the storage of
the lambda's local `value_pb`. The argument `storage` is what that storage
holds when the call starts, which is whatever earlier calls left there; the
result is what the lambda returns and what the storage holds when it returns.
The declaration `v0::Value value_pb;` default-constructs the message in the
storage, replacing what was there; `SerializeTensorValue(tensor, &value_pb)`
reads and writes it; `TFF_TRY` returns early on a non-OK status, and
`return value_pb;` returns the message otherwise. -/
def serialize_tensor_value_call (codec : TensorSerialization) (tensor : Tensor)
    (storage : v0.Value) : Except Status v0.Value × v0.Value :=
  let value_pb : v0.Value := v0.Value.construct storage
  let (status, value_pb) := codec.SerializeTensorValue tensor value_pb
  (TFF_TRY status fun _ => .ok value_pb, value_pb)

/-- A call of one of the two bound functions. -/
inductive Call where
  | serialize (tensor : Tensor)
  | deserialize (value_pb : v0.Value)
deriving DecidableEq, Repr

/-- What a call of one of the two bound functions returned. -/
inductive CallResult where
  | serialized (result : Except Status v0.Value)
  | deserialized (result : Except Status Tensor)
deriving DecidableEq

/-- A sequence of calls of the bound functions, in order, from a given content
of the storage of `value_pb`: the results of the calls. A call of
`serialize_tensor_value` hands the storage it leaves to the calls after it; a
call of `deserialize_tensor_value` has no local message and leaves the storage
alone. -/
def run_calls (codec : TensorSerialization) :
    List Call → v0.Value → List CallResult
  | [], _ => []
  | .serialize tensor :: rest, storage =>
    let (result, storage) := serialize_tensor_value_call codec tensor storage
    .serialized result :: run_calls codec rest storage
  | .deserialize value_pb :: rest, storage =>
    .deserialized (deserialize_tensor_value codec value_pb) :: run_calls codec rest storage

end tensorflow_federated

namespace serialization_bindings

open tensorflow python tensorflow_federated

/-- What a caller in Python gets from a bound function: the converted return
value, or one of the errors the binding layer raises. -/
inductive PyResult (α : Type) where
  /-- The function returned and its result was converted. -/
  | returned (v : α)
  /-- An argument caster's `load` returned false: the dispatcher raises its
  own "incompatible function arguments" error, which it builds from the
  function signature and the arguments. -/
  | incompatibleArguments
  /-- The function returned a non-OK `absl::StatusOr`: the status caster raises
  an error carrying that status. -/
  | statusNotOk (status : Status)
  /-- The result caster's `cast` returned the null handle: the pending Python
  error propagates. -/
  | raised (error : Option PyException)
deriving DecidableEq, Repr

/-- The module function `serialize_tensor_value` as called from Python: the
tensor caster (whose stored `value` starts default-constructed) loads the
argument, then the bound lambda runs on the stored tensor. -/
def serialize_tensor_value (api : TensorFlowApi) (codec : TensorSerialization)
    (src : handle) (st : Interpreter) : PyResult v0.Value × Interpreter :=
  let (loaded, value, st) := pybind11.detail.load api default src st
  if !loaded then (.incompatibleArguments, st)
  else
    match tensorflow_federated.serialize_tensor_value codec value with
    | .error status => (.statusNotOk status, st)
    | .ok value_pb => (.returned value_pb, st)

/-- The module function `deserialize_tensor_value` as called from Python:
`DeserializeTensorValue` runs on the message, and the tensor caster's `cast`
converts the tensor of an OK result. -/
def deserialize_tensor_value (api : TensorFlowApi) (codec : TensorSerialization)
    (value_pb : v0.Value) (st : Interpreter) : PyResult PyObject × Interpreter :=
  match tensorflow_federated.deserialize_tensor_value codec value_pb with
  | .error status => (.statusNotOk status, st)
  | .ok tensor =>
    match pybind11.detail.cast api tensor st with
    | (none, st) => (.raised st.pyErr, st)
    | (some array, st) => (.returned array, st)

end serialization_bindings

/-!
The codec, modelled from the specification

`tensor_serialization.h` and its implementation are not among the sources. The
definitions below follow the specification's components: DtypeRegistry (4.1),
ShapeCodec (4.2), BufferCodec (4.3), ValueEncoder (4.4), ValueDecoder (4.5),
with the error taxonomy of section 7. Bytes are natural numbers below 256.
-/

namespace tensorflow_federated

open tensorflow

/-- Modelled from the spec: the error taxonomy of section 7, with the context
the propagation policy asks for (the offending Dtype tag; expected and actual
byte counts). -/
inductive CodecError where
  | UnsupportedDtype (tag : Nat)
  | UnsupportedHostType
  | MalformedShape
  | TruncatedOrOversizedPayload (expected actual : Nat)
  | EncodingFailure
  | HostAllocationFailure
deriving DecidableEq, Repr

/-- Modelled from the spec: the status a codec error is reported as by the
functions of `tensor_serialization.h`. The specification names the errors; the
codes are the canonical absl codes chosen here (unimplemented 12, invalid
argument 3, data loss 15, internal 13, resource exhausted 8), none of them OK. -/
def CodecError.toStatus : CodecError → Status
  | .UnsupportedDtype tag => ⟨12, "UnsupportedDtype: " ++ toString tag⟩
  | .UnsupportedHostType => ⟨12, "UnsupportedHostType"⟩
  | .MalformedShape => ⟨3, "MalformedShape"⟩
  | .TruncatedOrOversizedPayload expected actual =>
    ⟨15, "TruncatedOrOversizedPayload: expected " ++ toString expected ++
      " bytes, got " ++ toString actual⟩
  | .EncodingFailure => ⟨13, "EncodingFailure"⟩
  | .HostAllocationFailure => ⟨8, "HostAllocationFailure"⟩

/-- Modelled from the spec: a fixed-width little-endian unsigned number, least
significant byte first, `width` bytes (the value is taken modulo
`256 ^ width`). -/
def encodeFixedLE : Nat → Nat → List Nat
  | 0, _ => []
  | width + 1, n => n % 256 :: encodeFixedLE width (n / 256)

/-- Modelled from the spec: the number a little-endian byte sequence stands
for. -/
def decodeFixedLE : List Nat → Nat
  | [] => 0
  | b :: rest => b + 256 * decodeFixedLE rest

/-- Modelled from the spec: the encoding rule of one Dtype (4.1): fixed-width
binary of a given number of bytes, or variable-width with one length
marker per element. -/
inductive Codec where
  | fixedWidth (width : Nat)
  | lengthPrefixed
deriving DecidableEq, Repr

/-- Modelled from the spec: the DtypeRegistry (4.1), the registered Dtype tags
and the codec of each; an unregistered tag has none. Which tags are registered
and their widths are configuration constants of the wire format. -/
abbrev DtypeRegistry := Nat → Option Codec

/-- Modelled from the spec: `encoding_for(dtype)`, which fails with
`UnsupportedDtype` for a Dtype that is not registered. -/
def DtypeRegistry.encoding_for (registry : DtypeRegistry) (dtype : Nat) :
    Except CodecError Codec :=
  match registry dtype with
  | some codec => .ok codec
  | none => .error (.UnsupportedDtype dtype)

/-- Modelled from the spec: the bytes of one element under a codec. A fixed-width
element is its bit pattern in `width` little-endian bytes; a string element is
an 8-byte little-endian length followed by its bytes. An element that does not
match the codec (the wrong kind, bits that do not fit the width, bytes that are
not bytes) is an `EncodingFailure`. -/
def Codec.encode_element (codec : Codec) (element : Element) :
    Except CodecError (List Nat) :=
  match codec, element with
  | .fixedWidth width, .scalar bits =>
    if bits < 256 ^ width then .ok (encodeFixedLE width bits)
    else .error .EncodingFailure
  | .lengthPrefixed, .bytes data =>
    if data.length < 256 ^ 8 ∧ data.all (fun b => decide (b < 256)) = true then
      .ok (encodeFixedLE 8 data.length ++ data)
    else .error .EncodingFailure
  | _, _ => .error .EncodingFailure

/-- Modelled from the spec: `encode_element_buffer(typed_elements) -> bytes`,
the elements' encodings one after the other, in buffer order. -/
def Codec.encode_element_buffer (codec : Codec) :
    List Element → Except CodecError (List Nat)
  | [] => .ok []
  | element :: rest =>
    match codec.encode_element element with
    | .error e => .error e
    | .ok head =>
      match codec.encode_element_buffer rest with
      | .error e => .error e
      | .ok tail => .ok (head ++ tail)

/-- Modelled from the spec: reads one element off the front of the payload and
returns it with the bytes that follow; too few bytes are a
`TruncatedOrOversizedPayload`. -/
def Codec.decode_element (codec : Codec) (bytes : List Nat) :
    Except CodecError (Element × List Nat) :=
  match codec with
  | .fixedWidth width =>
    if bytes.length < width then
      .error (.TruncatedOrOversizedPayload width bytes.length)
    else .ok (.scalar (decodeFixedLE (bytes.take width)), bytes.drop width)
  | .lengthPrefixed =>
    if bytes.length < 8 then
      .error (.TruncatedOrOversizedPayload 8 bytes.length)
    else
      let n := decodeFixedLE (bytes.take 8)
      let rest := bytes.drop 8
      if rest.length < n then
        .error (.TruncatedOrOversizedPayload (8 + n) bytes.length)
      else .ok (.bytes (rest.take n), rest.drop n)

/-- Modelled from the spec: reads `count` elements off the front of the
payload, in order, and returns them with the bytes left over. -/
def Codec.decode_elements (codec : Codec) :
    Nat → List Nat → Except CodecError (List Element × List Nat)
  | 0, bytes => .ok ([], bytes)
  | count + 1, bytes =>
    match codec.decode_element bytes with
    | .error e => .error e
    | .ok (element, rest) =>
      match codec.decode_elements count rest with
      | .error e => .error e
      | .ok (elements, left) => .ok (element :: elements, left)

namespace ShapeCodec

/-- Modelled from the spec: the dimensions one after the other, each a
fixed-width (8 bytes, little-endian) integer. -/
def encodeDims : List Nat → List Nat
  | [] => []
  | dim :: rest => encodeFixedLE 8 dim ++ encodeDims rest

/-- Modelled from the spec: `encode(shape) -> bytes` (4.2), the rank followed by
each dimension, each a fixed-width (8 bytes, little-endian) integer. -/
def encode (shape : List Nat) : List Nat :=
  encodeFixedLE 8 shape.length ++ encodeDims shape

/-- Modelled from the spec: reads `rank` dimensions; `MalformedShape` when
fewer are present or when one is negative (as a signed 64-bit integer: at
least `2 ^ 63`). -/
def decodeDims : Nat → List Nat → Except CodecError (List Nat)
  | 0, _ => .ok []
  | rank + 1, bytes =>
    if bytes.length < 8 then .error .MalformedShape
    else
      let dim := decodeFixedLE (bytes.take 8)
      if 2 ^ 63 ≤ dim then .error .MalformedShape
      else
        match decodeDims rank (bytes.drop 8) with
        | .error e => .error e
        | .ok dims => .ok (dim :: dims)

/-- Modelled from the spec: `decode(bytes) -> Shape` (4.2), which fails with
`MalformedShape` if the rank is negative, if a dimension is negative, or if
fewer dimension values are present than the declared rank. -/
def decode (bytes : List Nat) : Except CodecError (List Nat) :=
  if bytes.length < 8 then .error .MalformedShape
  else
    let rank := decodeFixedLE (bytes.take 8)
    if 2 ^ 63 ≤ rank then .error .MalformedShape
    else decodeDims rank (bytes.drop 8)

end ShapeCodec

namespace BufferCodec

/-- Modelled from the spec: the payload of an element buffer (4.3), delegated
to the Dtype's codec. -/
def encode (codec : Codec) (elements : List Element) : Except CodecError (List Nat) :=
  codec.encode_element_buffer elements

/-- Modelled from the spec: the element buffer of a payload (4.3), with the
total-length validation: the payload must have exactly the bytes the Dtype and
the element count predict (`width * count` for a fixed width; for strings, the
`count` length-marked elements and nothing after them), otherwise
`TruncatedOrOversizedPayload`. -/
def decode (codec : Codec) (bytes : List Nat) (count : Nat) :
    Except CodecError (List Element) :=
  let predicted : Except CodecError Unit :=
    match codec with
    | .fixedWidth width =>
      if bytes.length = width * count then .ok ()
      else .error (.TruncatedOrOversizedPayload (width * count) bytes.length)
    | .lengthPrefixed => .ok ()
  match predicted with
  | .error e => .error e
  | .ok _ =>
    match codec.decode_elements count bytes with
    | .error e => .error e
    | .ok (elements, left) =>
      if left.isEmpty then .ok elements
      else .error (.TruncatedOrOversizedPayload (bytes.length - left.length) bytes.length)

end BufferCodec

namespace ValueEncoder

/-- Modelled from the spec: `serialize(tensor) -> WireValue` (4.4): the Dtype
tag, the encoded shape, the encoded payload. Fails with `UnsupportedDtype` if
the tensor's Dtype is not registered and with `EncodingFailure` if the element
buffer does not match the declared Dtype and Shape. -/
def serialize (registry : DtypeRegistry) (tensor : Tensor) : Except CodecError v0.Value :=
  match registry.encoding_for tensor.dtype with
  | .error e => .error e
  | .ok codec =>
    if tensor.buf.length ≠ num_elements tensor.shape then .error .EncodingFailure
    else
      match BufferCodec.encode codec tensor.buf with
      | .error e => .error e
      | .ok payload => .ok ⟨tensor.dtype, ShapeCodec.encode tensor.shape, payload⟩

end ValueEncoder

namespace ValueDecoder

/-- Modelled from the spec: `deserialize(wire_value) -> Tensor` (4.5), the
reverse of the encoder; all or nothing. -/
def deserialize (registry : DtypeRegistry) (value : v0.Value) : Except CodecError Tensor :=
  match registry.encoding_for value.dtype with
  | .error e => .error e
  | .ok codec =>
    match ShapeCodec.decode value.shape with
    | .error e => .error e
    | .ok shape =>
      match BufferCodec.decode codec value.payload (num_elements shape) with
      | .error e => .error e
      | .ok buf => .ok ⟨value.dtype, shape, buf⟩

end ValueDecoder

/-- Modelled from the spec: `SerializeTensorValue(tensor, value_pb)` of
`tensor_serialization.h`: on success the message is the encoder's WireValue and
the status OK; on failure the status of the error, and the message is left as
it was (no partial WireValue). -/
def SerializeTensorValue (registry : DtypeRegistry) (tensor : Tensor) (value_pb : v0.Value) :
    Status × v0.Value :=
  match ValueEncoder.serialize registry tensor with
  | .ok value => (OkStatus, value)
  | .error e => (e.toStatus, value_pb)

/-- Modelled from the spec: `DeserializeTensorValue(value_pb)` of
`tensor_serialization.h`: the decoder's tensor, or the status of its error. -/
def DeserializeTensorValue (registry : DtypeRegistry) (value_pb : v0.Value) :
    Except Status Tensor :=
  match ValueDecoder.deserialize registry value_pb with
  | .ok tensor => .ok tensor
  | .error e => .error e.toStatus

/-- Modelled from the spec: the codec of `tensor_serialization.h` over a
registry. -/
def specCodec (registry : DtypeRegistry) : TensorSerialization :=
  { SerializeTensorValue := SerializeTensorValue registry
    DeserializeTensorValue := DeserializeTensorValue registry }

/-- Modelled from the spec: a shape the 8-byte signed dimension encoding can
carry: rank and every dimension below `2 ^ 63`. -/
def SupportedShape (shape : List Nat) : Prop :=
  shape.length < 2 ^ 63 ∧ ∀ d ∈ shape, d < 2 ^ 63

instance (shape : List Nat) : Decidable (SupportedShape shape) := by
  unfold SupportedShape; infer_instance

/-- Modelled from the spec: a registry with the element types the
specification lists: float32 (tag 1, 4 bytes), float64 (2, 8 bytes), int32
(3, 4 bytes), string (7, length-marked), complex64 (8, 8 bytes), int64
(9, 8 bytes), bool (10, one byte per element), complex128 (18, 16 bytes). -/
def listedRegistry : DtypeRegistry := fun tag =>
  if tag = 1 then some (.fixedWidth 4)
  else if tag = 2 then some (.fixedWidth 8)
  else if tag = 3 then some (.fixedWidth 4)
  else if tag = 7 then some .lengthPrefixed
  else if tag = 8 then some (.fixedWidth 8)
  else if tag = 9 then some (.fixedWidth 8)
  else if tag = 10 then some (.fixedWidth 1)
  else if tag = 18 then some (.fixedWidth 16)
  else none

end tensorflow_federated

/-!
Sample environment

A small, concrete TensorFlow API and a few inputs, used to evaluate the
definitions above on explicit data.
-/

namespace sample

open tensorflow python tensorflow_federated

/-- A sample API. `NdarrayToTensor` rejects the null handle and an array whose
element type is 0 (no mapping) or whose buffer does not have the shape's number
of elements; `TF_TensorToTensor` rejects the null pointer and type 20;
`TensorToNdarray` rejects type 20 and a buffer that does not match the shape,
in the second case after writing an array without data to its output and
setting a Python error. -/
def api : TensorFlowApi where
  NdarrayToTensor := fun src out err =>
    match src with
    | none => (⟨3, "null object"⟩, out, err)
    | some a =>
      if a.dtype = 0 then (⟨12, "Unsupported object type"⟩, out, err)
      else if a.raw_buffer.length ≠ num_elements a.shape then
        (⟨3, "Malformed array"⟩, out, err)
      else (OkStatus, some ⟨a.dtype, a.shape, a.raw_buffer⟩, err)
  TF_TensorToTensor := fun src dst =>
    match src with
    | none => (⟨3, "null TF_Tensor"⟩, dst)
    | some t =>
      if t.dtype = 20 then (⟨12, "Unsupported tensor type"⟩, dst)
      else (OkStatus, ⟨t.dtype, t.dims, t.data⟩)
  TensorToNdarray := fun t out err =>
    if t.dtype = 20 then (⟨12, "Unsupported tensor type"⟩, out, err)
    else if t.buf.length ≠ num_elements t.shape then
      (⟨13, "Invalid shape product"⟩, some ⟨t.dtype, t.shape, []⟩, some ⟨"MemoryError", ""⟩)
    else (OkStatus, some ⟨t.dtype, t.shape, t.buf⟩, err)

/-- An interpreter with no pending error and an empty log. -/
def idle : Interpreter := ⟨none, []⟩

/-- An interpreter with a pending Python error. -/
def pending : Interpreter := ⟨some ⟨"KeyError", "k"⟩, []⟩

/-- The 2×3 float32 array of the specification's scenario,
`[[1.0, -0.0, NaN], [Inf, -Inf, 3.5]]`, as bit patterns. -/
def array23 : PyObject :=
  ⟨1, [2, 3], [.scalar 0x3f800000, .scalar 0x80000000, .scalar 0x7fc00001,
    .scalar 0x7f800000, .scalar 0xff800000, .scalar 0x40600000]⟩

/-- The tensor of `array23`. -/
def tensor23 : Tensor := ⟨array23.dtype, array23.shape, array23.raw_buffer⟩

/-- The wire value of `tensor23` under the listed registry: tag 1, rank 2 and
the dimensions 2 and 3 in 8 bytes each, and a payload of 24 bytes. -/
def value23 : v0.Value :=
  ⟨1, [2, 0, 0, 0, 0, 0, 0, 0, 2, 0, 0, 0, 0, 0, 0, 0, 3, 0, 0, 0, 0, 0, 0, 0],
    [0, 0, 128, 63, 0, 0, 0, 128, 1, 0, 192, 127, 0, 0, 128, 127, 0, 0, 128, 255,
      0, 0, 96, 64]⟩

/-- A rank-0 int64 tensor holding 5. -/
def tensorScalar : Tensor := ⟨9, [], [.scalar 5]⟩

/-- A string tensor of shape `[0]`, without elements. -/
def tensorEmpty : Tensor := ⟨7, [0], []⟩

/-- A string tensor of shape `[2]`, one of its elements empty. -/
def tensorStrings : Tensor := ⟨7, [2], [.bytes [104, 105], .bytes []]⟩

/-- An array whose element type has no mapping. -/
def arrayNoType : PyObject := ⟨0, [1], [.scalar 7]⟩

/-- An array whose buffer is shorter than its shape says. -/
def arrayShort : PyObject := ⟨1, [2], [.scalar 7]⟩

/-- An array of the type `TF_TensorToTensor` rejects. -/
def arrayResource : PyObject := ⟨20, [1], [.scalar 7]⟩

/-- A tensor of the type `TensorToNdarray` rejects. -/
def tensorResource : Tensor := ⟨20, [1], [.scalar 7]⟩

/-- A tensor whose buffer does not match its shape. -/
def tensorShort : Tensor := ⟨1, [2], [.scalar 7]⟩

/-- A codec whose serializer fails on type 0 after writing a tag into the
message, and otherwise stores the tag and rank; its deserializer rejects tag 0
and otherwise takes the message's fields as the tensor's. -/
def codec : TensorSerialization where
  SerializeTensorValue := fun t value_pb =>
    if t.dtype = 0 then (⟨12, "no such type"⟩, { value_pb with dtype := 99 })
    else (OkStatus, ⟨t.dtype, [t.shape.length], []⟩)
  DeserializeTensorValue := fun v =>
    if v.dtype = 0 then .error ⟨3, "no tag"⟩
    else .ok ⟨v.dtype, v.shape, v.payload.map Element.scalar⟩

/-- A codec whose serializer merges into the message it is given: it keeps
the shape and payload bytes already there and appends the tensor's shape and
its number of elements. Its result depends on the initial message. -/
def merging : TensorSerialization where
  SerializeTensorValue := fun t value_pb =>
    if t.dtype = 0 then (⟨12, "no such type"⟩, { value_pb with dtype := 99 })
    else (OkStatus, ⟨t.dtype, value_pb.shape ++ t.shape, value_pb.payload ++ [t.buf.length]⟩)
  DeserializeTensorValue := fun v =>
    if v.dtype = 0 then .error ⟨3, "no tag"⟩
    else .ok ⟨v.dtype, v.shape, v.payload.map Element.scalar⟩

/-- A message with every field set, as an earlier call may leave it. -/
def usedValue : v0.Value := ⟨5, [9], [9]⟩

/-- A history of four calls: a serialization, a failing serialization, a
deserialization and one more serialization. -/
def history : List Call :=
  [.serialize tensorResource, .serialize ⟨0, [], []⟩, .deserialize value23,
    .serialize tensorStrings]

end sample

/-!
The array bridge: `load` and `cast`
-/

namespace pybind11.detail

open tensorflow python tensorflow_federated

/-- Copying a tensor with its own shape succeeds and yields that tensor. -/
theorem CopyFrom_own_shape (self other : Tensor) :
    self.CopyFrom other other.shape = (true, other) := by
  simp [Tensor.CopyFrom, Tensor.NumElements]

/-- Claim C8. `load` returns true exactly when `NdarrayToTensor` returns OK,
`TF_TensorToTensor` returns OK and no Python error is pending after them.
`CopyFrom` called with the source tensor's own shape always returns true, and
when both conversions succeed with a Python error pending, `load` returns false
with the stored tensor as it was. -/
theorem load_true_iff_conversions_ok (api : TensorFlowApi) (value : Tensor) (src : handle)
    (st : Interpreter) :
    ((load api value src st).1 = true ↔
      ((api.NdarrayToTensor src none st.pyErr).1.ok = true ∧
       (api.TF_TensorToTensor (api.NdarrayToTensor src none st.pyErr).2.1 default).1.ok = true ∧
       (api.NdarrayToTensor src none st.pyErr).2.2 = none)) ∧
    (∀ tensor : Tensor, (value.CopyFrom tensor tensor.shape).1 = true) ∧
    ((api.NdarrayToTensor src none st.pyErr).1.ok = true →
     (api.TF_TensorToTensor (api.NdarrayToTensor src none st.pyErr).2.1 default).1.ok = true →
     (api.NdarrayToTensor src none st.pyErr).2.2 ≠ none →
      load api value src st =
        (false, value, { st with pyErr := (api.NdarrayToTensor src none st.pyErr).2.2 })) := by
  refine ⟨?_, fun t => by rw [CopyFrom_own_shape], ?_⟩
  · simp only [load, PyErr_Occurred, CopyFrom_own_shape]
    cases h1 : (api.NdarrayToTensor src none st.pyErr).1.ok <;> simp
    cases h2 : (api.TF_TensorToTensor (api.NdarrayToTensor src none st.pyErr).2.1 default).1.ok
      <;> simp
    cases h3 : (api.NdarrayToTensor src none st.pyErr).2.2 <;> simp
  · intro h1 h2 h3
    simp only [load, PyErr_Occurred, CopyFrom_own_shape, h1, h2]
    cases h4 : (api.NdarrayToTensor src none st.pyErr).2.2 with
    | none => exact absurd h4 h3
    | some e => simp

/-- Claim C8 on the sample API: `load` accepts the 2×3 array, and rejects it
when a Python error is pending, through the third conjunct of the theorem. -/
theorem load_true_iff_conversions_ok_witness :
    (load sample.api default (some sample.array23) sample.idle).1 = true ∧
    load sample.api default (some sample.array23) sample.pending =
      (false, default, sample.pending) :=
  ⟨(load_true_iff_conversions_ok sample.api default (some sample.array23) sample.idle).1.2
      ⟨by decide, by decide, by decide⟩,
    (load_true_iff_conversions_ok sample.api default (some sample.array23) sample.pending).2.2
      (by decide) (by decide) (by decide)⟩

/-- Claim C6. When `load` returns true, the stored tensor has the element type,
the shape and the flat buffer, in the same order, of the tensor that
`TF_TensorToTensor` produced. -/
theorem load_value_matches_converted_tensor (api : TensorFlowApi) (value : Tensor)
    (src : handle) (st : Interpreter) (h : (load api value src st).1 = true) :
    (load api value src st).2.1.dtype =
      (api.TF_TensorToTensor (api.NdarrayToTensor src none st.pyErr).2.1 default).2.dtype ∧
    (load api value src st).2.1.shape =
      (api.TF_TensorToTensor (api.NdarrayToTensor src none st.pyErr).2.1 default).2.shape ∧
    (load api value src st).2.1.buf =
      (api.TF_TensorToTensor (api.NdarrayToTensor src none st.pyErr).2.1 default).2.buf := by
  revert h
  simp only [load, PyErr_Occurred, CopyFrom_own_shape]
  cases h1 : (api.NdarrayToTensor src none st.pyErr).1.ok <;> simp
  cases h2 : (api.TF_TensorToTensor (api.NdarrayToTensor src none st.pyErr).2.1 default).1.ok
    <;> simp
  cases h3 : (api.NdarrayToTensor src none st.pyErr).2.2 <;> simp

/-- Claim C6 on the sample API and the 2×3 array. -/
theorem load_value_matches_converted_tensor_witness :
    (load sample.api default (some sample.array23) sample.idle).1 = true ∧
    (load sample.api default (some sample.array23) sample.idle).2.1.dtype = 1 ∧
    (load sample.api default (some sample.array23) sample.idle).2.1.shape = [2, 3] ∧
    (load sample.api default (some sample.array23) sample.idle).2.1.buf =
      sample.array23.raw_buffer :=
  have h := load_value_matches_converted_tensor sample.api default (some sample.array23)
    sample.idle (by decide)
  ⟨by decide, h.1.trans (by decide), h.2.1.trans (by decide), h.2.2.trans (by decide)⟩

/-- Claim C5. When `load` returns false the stored tensor is what it was before
the call. When `TensorToNdarray` returns a non-OK status, `cast` returns the
null handle with the `ValueError` set, whatever was written to the output; when
it returns OK, `cast` returns the array `TensorToNdarray` produced. -/
theorem bridge_failure_no_partial_result (api : TensorFlowApi) :
    (∀ (value : Tensor) (src : handle) (st : Interpreter),
      (load api value src st).1 = false → (load api value src st).2.1 = value) ∧
    (∀ (tensor : Tensor) (st : Interpreter),
      (api.TensorToNdarray tensor none st.pyErr).1.ok = false →
        (pybind11.detail.cast api tensor st).1 = none ∧
        (pybind11.detail.cast api tensor st).2.pyErr =
          some ⟨"ValueError", "Failed to create np.ndarray"⟩) ∧
    (∀ (tensor : Tensor) (st : Interpreter),
      (api.TensorToNdarray tensor none st.pyErr).1.ok = true →
        (pybind11.detail.cast api tensor st).1 =
          (api.TensorToNdarray tensor none st.pyErr).2.1) := by
  refine ⟨?_, ?_, ?_⟩
  · intro value src st
    simp only [load, PyErr_Occurred, CopyFrom_own_shape]
    cases h1 : (api.NdarrayToTensor src none st.pyErr).1.ok <;> simp
    cases h2 : (api.TF_TensorToTensor (api.NdarrayToTensor src none st.pyErr).2.1 default).1.ok
      <;> simp
    cases h3 : (api.NdarrayToTensor src none st.pyErr).2.2 <;> simp
  · intro tensor st h
    simp [pybind11.detail.cast, h, PyErr_SetString]
  · intro tensor st h
    simp [pybind11.detail.cast, h]

/-- Claim C5 on the sample API: a rejected array leaves the default tensor; a
failing `TensorToNdarray` that wrote an array to its output still gives the
null handle; a successful one gives its array. -/
theorem bridge_failure_no_partial_result_witness :
    (load sample.api default (some sample.arrayNoType) sample.idle).1 = false ∧
    (load sample.api default (some sample.arrayNoType) sample.idle).2.1 = default ∧
    (sample.api.TensorToNdarray sample.tensorShort none none).2.1 = some ⟨1, [2], []⟩ ∧
    (pybind11.detail.cast sample.api sample.tensorShort sample.idle).1 = none ∧
    (pybind11.detail.cast sample.api sample.tensor23 sample.idle).1 = some sample.array23 :=
  have h := bridge_failure_no_partial_result sample.api
  ⟨by decide, h.1 _ _ _ (by decide), by decide,
    (h.2.1 sample.tensorShort sample.idle (by decide)).1,
    (h.2.2 sample.tensor23 sample.idle (by decide)).trans (by decide)⟩

/-- Claim C3, as stated, fails: on the sample API two arrays fail to convert
with different statuses, and `load` returns the same flag, stored tensor and
error indicator for both; the caller of `serialize_tensor_value` gets the same
result for both. -/
theorem load_result_does_not_carry_status :
    (sample.api.NdarrayToTensor (some sample.arrayNoType) none none).1 =
      ⟨12, "Unsupported object type"⟩ ∧
    (sample.api.NdarrayToTensor (some sample.arrayShort) none none).1 =
      ⟨3, "Malformed array"⟩ ∧
    (load sample.api default (some sample.arrayNoType) sample.idle).1 = false ∧
    (load sample.api default (some sample.arrayShort) sample.idle).1 = false ∧
    (load sample.api default (some sample.arrayNoType) sample.idle).2.1 =
      (load sample.api default (some sample.arrayShort) sample.idle).2.1 ∧
    (load sample.api default (some sample.arrayNoType) sample.idle).2.2.pyErr =
      (load sample.api default (some sample.arrayShort) sample.idle).2.2.pyErr ∧
    (serialization_bindings.serialize_tensor_value sample.api sample.codec
        (some sample.arrayNoType) sample.idle).1 =
      (serialization_bindings.serialize_tensor_value sample.api sample.codec
        (some sample.arrayShort) sample.idle).1 := by
  decide

/-- Claim C3, amended. When the conversion of a host array fails with a non-OK
status `s` (from `NdarrayToTensor`, or from `TF_TensorToTensor` after it),
`load` returns false, leaves the stored tensor alone and writes `s` to the
error log; the caller of `serialize_tensor_value` gets the binding layer's
argument error, which does not carry `s`. -/
theorem load_conversion_failure_logged (api : TensorFlowApi) (codec : TensorSerialization)
    (value : Tensor) (src : handle) (st : Interpreter) (s : Status)
    (hs : s.ok = false)
    (h : (api.NdarrayToTensor src none st.pyErr).1 = s ∨
      ((api.NdarrayToTensor src none st.pyErr).1.ok = true ∧
        (api.TF_TensorToTensor (api.NdarrayToTensor src none st.pyErr).2.1 default).1 = s)) :
    load api value src st =
      (false, value, ⟨(api.NdarrayToTensor src none st.pyErr).2.2, st.errorLog ++ [s]⟩) ∧
    (serialization_bindings.serialize_tensor_value api codec src st).1 =
      .incompatibleArguments := by
  have hl : load api value src st =
      (false, value, ⟨(api.NdarrayToTensor src none st.pyErr).2.2, st.errorLog ++ [s]⟩) ∧
      load api default src st =
      (false, default, ⟨(api.NdarrayToTensor src none st.pyErr).2.2, st.errorLog ++ [s]⟩) := by
    rcases h with h | ⟨h1, h2⟩
    · subst h
      simp [load, hs, LOG_ERROR]
    · subst h2
      simp [load, hs, h1, LOG_ERROR]
  refine ⟨hl.1, ?_⟩
  simp [serialization_bindings.serialize_tensor_value, hl.2]

/-- Claim C3, amended, on the sample API: a failure of `NdarrayToTensor` and a
failure of `TF_TensorToTensor`. -/
theorem load_conversion_failure_logged_witness :
    load sample.api default (some sample.arrayNoType) sample.idle =
      (false, default, ⟨none, [⟨12, "Unsupported object type"⟩]⟩) ∧
    load sample.api default (some sample.arrayResource) sample.idle =
      (false, default, ⟨none, [⟨12, "Unsupported tensor type"⟩]⟩) ∧
    (serialization_bindings.serialize_tensor_value sample.api sample.codec
      (some sample.arrayNoType) sample.idle).1 = .incompatibleArguments :=
  have h1 := load_conversion_failure_logged sample.api sample.codec default
    (some sample.arrayNoType) sample.idle ⟨12, "Unsupported object type"⟩ (by decide)
    (Or.inl (by decide))
  have h2 := load_conversion_failure_logged sample.api sample.codec default
    (some sample.arrayResource) sample.idle ⟨12, "Unsupported tensor type"⟩ (by decide)
    (Or.inr ⟨by decide, by decide⟩)
  ⟨h1.1, h2.1, h1.2⟩

/-- Claim C4, as stated, fails: on the sample API two tensors fail to convert
with different statuses, and `cast` returns the same null handle and sets the
same error for both; the caller of `deserialize_tensor_value` gets the same
result for both. -/
theorem cast_error_does_not_depend_on_status :
    (sample.api.TensorToNdarray sample.tensorResource none none).1 =
      ⟨12, "Unsupported tensor type"⟩ ∧
    (sample.api.TensorToNdarray sample.tensorShort none none).1 =
      ⟨13, "Invalid shape product"⟩ ∧
    pybind11.detail.cast sample.api sample.tensorResource sample.idle =
      (none, ⟨some ⟨"ValueError", "Failed to create np.ndarray"⟩, []⟩) ∧
    pybind11.detail.cast sample.api sample.tensorShort sample.idle =
      (none, ⟨some ⟨"ValueError", "Failed to create np.ndarray"⟩, []⟩) ∧
    serialization_bindings.deserialize_tensor_value sample.api sample.codec ⟨20, [1], [7]⟩
        sample.idle =
      serialization_bindings.deserialize_tensor_value sample.api sample.codec ⟨1, [2], [7]⟩
        sample.idle := by
  decide

/-- Claim C4, amended. When `TensorToNdarray` returns a non-OK status, `cast`
returns the null handle and sets the `ValueError` with the fixed message
"Failed to create np.ndarray", whatever the status; the caller of
`deserialize_tensor_value` has that error raised. -/
theorem cast_failure_fixed_error (api : TensorFlowApi) (tensor : Tensor) (st : Interpreter)
    (h : (api.TensorToNdarray tensor none st.pyErr).1.ok = false) :
    pybind11.detail.cast api tensor st =
      (none, ⟨some ⟨"ValueError", "Failed to create np.ndarray"⟩, st.errorLog⟩) ∧
    ∀ (codec : TensorSerialization) (value_pb : v0.Value),
      codec.DeserializeTensorValue value_pb = .ok tensor →
      serialization_bindings.deserialize_tensor_value api codec value_pb st =
        (.raised (some ⟨"ValueError", "Failed to create np.ndarray"⟩),
          ⟨some ⟨"ValueError", "Failed to create np.ndarray"⟩, st.errorLog⟩) := by
  have hc : pybind11.detail.cast api tensor st =
      (none, ⟨some ⟨"ValueError", "Failed to create np.ndarray"⟩, st.errorLog⟩) := by
    simp [pybind11.detail.cast, h, PyErr_SetString]
  refine ⟨hc, ?_⟩
  intro codec value_pb hd
  simp [serialization_bindings.deserialize_tensor_value,
    tensorflow_federated.deserialize_tensor_value, hd, hc]

/-- Claim C4, amended, on the sample API and a tensor whose buffer does not
match its shape. -/
theorem cast_failure_fixed_error_witness :
    (sample.api.TensorToNdarray sample.tensorShort none sample.idle.pyErr).1.ok = false ∧
    pybind11.detail.cast sample.api sample.tensorShort sample.idle =
      (none, ⟨some ⟨"ValueError", "Failed to create np.ndarray"⟩, []⟩) :=
  ⟨by decide, (cast_failure_fixed_error sample.api sample.tensorShort sample.idle (by decide)).1⟩

end pybind11.detail

/-!
The bound functions
-/

namespace tensorflow_federated

open tensorflow python

/-- Claim C2. The bound `serialize_tensor_value` returns a success carrying `v`
exactly when `SerializeTensorValue` returns OK on a default-constructed message,
`v` being that message as the codec left it; otherwise it returns the codec's
status itself, and no message. -/
theorem serialize_tensor_value_status_propagation (codec : TensorSerialization) (t : Tensor) :
    (∀ v : v0.Value, serialize_tensor_value codec t = .ok v ↔
      ((codec.SerializeTensorValue t default).1.ok = true ∧
        v = (codec.SerializeTensorValue t default).2)) ∧
    ((codec.SerializeTensorValue t default).1.ok = false →
      serialize_tensor_value codec t = .error (codec.SerializeTensorValue t default).1) := by
  constructor
  · intro v
    simp only [serialize_tensor_value, TFF_TRY]
    cases h : (codec.SerializeTensorValue t default).1.ok <;> simp [eq_comm]
  · intro h
    simp [serialize_tensor_value, TFF_TRY, h]

/-- Claim C2 on the sample codec: a success, and a failure in which the codec
had written to the message before failing. -/
theorem serialize_tensor_value_status_propagation_witness :
    serialize_tensor_value sample.codec sample.tensor23 = .ok ⟨1, [2], []⟩ ∧
    (sample.codec.SerializeTensorValue ⟨0, [], [.scalar 1]⟩ default).2 = ⟨99, [], []⟩ ∧
    serialize_tensor_value sample.codec ⟨0, [], [.scalar 1]⟩ = .error ⟨12, "no such type"⟩ :=
  have h1 := serialize_tensor_value_status_propagation sample.codec sample.tensor23
  have h2 := serialize_tensor_value_status_propagation sample.codec ⟨0, [], [.scalar 1]⟩
  ⟨(h1.1 _).2 ⟨by decide, by decide⟩, by decide, h2.2 (by decide)⟩

/-- A call of the bound `serialize_tensor_value` returns what the lambda
returns on its tensor, whatever the storage held when the call started. -/
theorem serialize_tensor_value_call_result (codec : TensorSerialization) (t : Tensor)
    (storage : v0.Value) :
    (serialize_tensor_value_call codec t storage).1 = serialize_tensor_value codec t := by
  simp only [serialize_tensor_value_call, serialize_tensor_value, v0.Value.construct]

/-- In a sequence of calls, the call that follows the calls `pre` on tensor
`x` returns what the lambda returns on `x`. -/
theorem run_calls_serialize_at (codec : TensorSerialization) (pre post : List Call)
    (x : Tensor) (storage : v0.Value) :
    (run_calls codec (pre ++ .serialize x :: post) storage)[pre.length]? =
      some (.serialized (serialize_tensor_value codec x)) := by
  induction pre generalizing storage with
  | nil => simp [run_calls, serialize_tensor_value_call_result]
  | cons c cs ih =>
    cases c with
    | serialize u =>
      simpa [run_calls] using ih (serialize_tensor_value_call codec u storage).2
    | deserialize v => simpa [run_calls] using ih storage

/-- Claim C7. The bound `serialize_tensor_value` is deterministic and
history-independent. For every codec (a function of the tensor and the initial
message), every content of the storage of `value_pb` at the start, and every
sequence of calls of the two bound functions with two calls on the same tensor
`t` in it (any calls before, between and after them): both calls return the
same result. That result is fixed by `t` alone: it is what
`SerializeTensorValue` does on `t` and a default-constructed message, not on
what an earlier call left behind. -/
theorem serialize_calls_history_independent (codec : TensorSerialization)
    (storage : v0.Value) (before between after : List Call) (t : Tensor) :
    (run_calls codec (before ++ .serialize t :: (between ++ .serialize t :: after))
        storage)[before.length]? =
      (run_calls codec (before ++ .serialize t :: (between ++ .serialize t :: after))
        storage)[before.length + 1 + between.length]? ∧
    (run_calls codec (before ++ .serialize t :: (between ++ .serialize t :: after))
        storage)[before.length]? =
      some (.serialized
        (if (codec.SerializeTensorValue t default).1.ok = true then
          .ok (codec.SerializeTensorValue t default).2
        else .error (codec.SerializeTensorValue t default).1)) ∧
    ∀ (history1 history2 : List Call) (storage1 storage2 : v0.Value),
      (run_calls codec (history1 ++ [.serialize t]) storage1)[history1.length]? =
        (run_calls codec (history2 ++ [.serialize t]) storage2)[history2.length]? := by
  have hfresh : serialize_tensor_value codec t =
      (if (codec.SerializeTensorValue t default).1.ok = true then
        .ok (codec.SerializeTensorValue t default).2
      else .error (codec.SerializeTensorValue t default).1) := by
    simp only [serialize_tensor_value, TFF_TRY]
    cases h : (codec.SerializeTensorValue t default).1.ok <;> simp
  have h1 := run_calls_serialize_at codec before (between ++ .serialize t :: after) t storage
  have h2 := run_calls_serialize_at codec (before ++ .serialize t :: between) after t storage
  have h2b : (run_calls codec (before ++ .serialize t :: (between ++ .serialize t :: after))
      storage)[before.length + 1 + between.length]? =
      some (.serialized (serialize_tensor_value codec t)) := by
    simpa [Nat.add_assoc, Nat.add_comm 1] using h2
  refine ⟨by rw [h1, h2b], by rw [h1, hfresh], ?_⟩
  intro history1 history2 storage1 storage2
  rw [run_calls_serialize_at codec history1 [] t storage1,
    run_calls_serialize_at codec history2 [] t storage2]

/-- Claim C7 on a codec that merges into the message it is given. The codec
itself gives different messages from a used and from a default-constructed
message; the calls, started on the used message, give the 2×3 tensor the same
result after one call and after five, the result from the default-constructed
message. -/
theorem serialize_calls_history_independent_witness :
    (sample.merging.SerializeTensorValue sample.tensor23 sample.usedValue).2 =
      ⟨1, [9, 2, 3], [9, 6]⟩ ∧
    (sample.merging.SerializeTensorValue sample.tensor23 default).2 = ⟨1, [2, 3], [6]⟩ ∧
    run_calls sample.merging
        (.serialize sample.tensorScalar :: .serialize sample.tensor23 ::
          (sample.history ++ .serialize sample.tensor23 :: []))
        sample.usedValue =
      [.serialized (.ok ⟨9, [], [1]⟩), .serialized (.ok ⟨1, [2, 3], [6]⟩),
        .serialized (.ok ⟨20, [1], [1]⟩), .serialized (.error ⟨12, "no such type"⟩),
        .deserialized (.ok ⟨1, sample.value23.shape, sample.value23.payload.map .scalar⟩),
        .serialized (.ok ⟨7, [2], [2]⟩), .serialized (.ok ⟨1, [2, 3], [6]⟩)] ∧
    (run_calls sample.merging
        ([.serialize sample.tensorScalar] ++ .serialize sample.tensor23 ::
          (sample.history ++ .serialize sample.tensor23 :: []))
        sample.usedValue)[1]? =
      (run_calls sample.merging
        ([.serialize sample.tensorScalar] ++ .serialize sample.tensor23 ::
          (sample.history ++ .serialize sample.tensor23 :: []))
        sample.usedValue)[1 + 1 + 4]? :=
  ⟨by decide, by decide, by decide,
    (serialize_calls_history_independent sample.merging sample.usedValue
      [.serialize sample.tensorScalar] sample.history [] sample.tensor23).1⟩

/-!
Round trip of the codec
-/

/-- The fixed-width encoding has `width` bytes. -/
theorem length_encodeFixedLE (width n : Nat) : (encodeFixedLE width n).length = width := by
  induction width generalizing n with
  | zero => rfl
  | succ w ih => simp [encodeFixedLE, ih]

/-- A number that fits the width is read back from its encoding. -/
theorem decodeFixedLE_encodeFixedLE (width n : Nat) (h : n < 256 ^ width) :
    decodeFixedLE (encodeFixedLE width n) = n := by
  induction width generalizing n with
  | zero =>
    simp at h
    simp [encodeFixedLE, decodeFixedLE, h]
  | succ w ih =>
    have hq : n / 256 < 256 ^ w := by
      apply Nat.div_lt_of_lt_mul
      rw [pow_succ] at h
      rw [Nat.mul_comm]
      exact h
    simp only [encodeFixedLE, decodeFixedLE, ih _ hq]
    omega

/-- Reading a number off the front of a longer byte sequence. -/
theorem decodeFixedLE_take_encodeFixedLE (width n : Nat) (rest : List Nat)
    (h : n < 256 ^ width) :
    decodeFixedLE ((encodeFixedLE width n ++ rest).take width) = n := by
  rw [List.take_left' (length_encodeFixedLE width n), decodeFixedLE_encodeFixedLE width n h]

/-- What follows an encoded number. -/
theorem drop_encodeFixedLE (width n : Nat) (rest : List Nat) :
    (encodeFixedLE width n ++ rest).drop width = rest :=
  List.drop_left' (length_encodeFixedLE width n)

/-- An encoded element is read back, leaving the bytes that follow it. -/
theorem decode_element_encode_element (codec : Codec) (element : Element)
    (bytes rest : List Nat) (h : codec.encode_element element = .ok bytes) :
    codec.decode_element (bytes ++ rest) = .ok (element, rest) := by
  cases codec with
  | fixedWidth width =>
    cases element with
    | scalar bits =>
      simp only [Codec.encode_element] at h
      split at h
      · rename_i hb
        cases h
        simp [Codec.decode_element, length_encodeFixedLE, drop_encodeFixedLE,
          decodeFixedLE_encodeFixedLE _ _ hb]
      · cases h
    | bytes data => simp [Codec.encode_element] at h
  | lengthPrefixed =>
    cases element with
    | scalar bits => simp [Codec.encode_element] at h
    | bytes data =>
      simp only [Codec.encode_element] at h
      split at h
      · rename_i hb
        cases h
        simp only [Codec.decode_element, List.append_assoc]
        rw [decodeFixedLE_take_encodeFixedLE _ _ _ hb.1, drop_encodeFixedLE]
        simp [length_encodeFixedLE]
      · cases h

/-- An encoded buffer is read back element by element. -/
theorem decode_elements_encode_element_buffer (codec : Codec) (elements : List Element)
    (bytes rest : List Nat) (h : codec.encode_element_buffer elements = .ok bytes) :
    codec.decode_elements elements.length (bytes ++ rest) = .ok (elements, rest) := by
  induction elements generalizing bytes with
  | nil =>
    simp only [Codec.encode_element_buffer] at h
    cases h
    simp [Codec.decode_elements]
  | cons e es ih =>
    simp only [Codec.encode_element_buffer] at h
    cases he : codec.encode_element e with
    | error err => simp [he] at h
    | ok head =>
      cases ht : codec.encode_element_buffer es with
      | error err => simp [he, ht] at h
      | ok tail =>
        simp only [he, ht] at h
        cases h
        simp only [List.length_cons, Codec.decode_elements, List.append_assoc]
        rw [decode_element_encode_element codec e head (tail ++ rest) he]
        simp only
        rw [ih tail ht]

/-- A fixed-width payload has `width` bytes per element. -/
theorem length_encode_element_buffer (width : Nat) (elements : List Element)
    (bytes : List Nat)
    (h : (Codec.fixedWidth width).encode_element_buffer elements = .ok bytes) :
    bytes.length = width * elements.length := by
  induction elements generalizing bytes with
  | nil =>
    simp only [Codec.encode_element_buffer] at h
    cases h
    simp
  | cons e es ih =>
    simp only [Codec.encode_element_buffer] at h
    cases he : (Codec.fixedWidth width).encode_element e with
    | error err => simp [he] at h
    | ok head =>
      cases ht : (Codec.fixedWidth width).encode_element_buffer es with
      | error err => simp [he, ht] at h
      | ok tail =>
        simp only [he, ht] at h
        cases h
        have hh : head.length = width := by
          cases e with
          | scalar bits =>
            simp only [Codec.encode_element] at he
            split at he
            · cases he; exact length_encodeFixedLE _ _
            · cases he
          | bytes data => simp [Codec.encode_element] at he
        simp [hh, ih tail ht, Nat.mul_add, Nat.add_comm]

/-- The BufferCodec reads back what it wrote. -/
theorem BufferCodec_decode_encode (codec : Codec) (elements : List Element)
    (bytes : List Nat) (h : BufferCodec.encode codec elements = .ok bytes) :
    BufferCodec.decode codec bytes elements.length = .ok elements := by
  have hd := decode_elements_encode_element_buffer codec elements bytes [] h
  rw [List.append_nil] at hd
  cases codec with
  | fixedWidth width =>
    have hl := length_encode_element_buffer width elements bytes h
    simp [BufferCodec.decode, hl, hd]
  | lengthPrefixed =>
    simp [BufferCodec.decode, hd]

/-- Dimensions below `2 ^ 63` are read back. -/
theorem decodeDims_encodeDims (shape : List Nat) (rest : List Nat)
    (h : ∀ d ∈ shape, d < 2 ^ 63) :
    ShapeCodec.decodeDims shape.length (ShapeCodec.encodeDims shape ++ rest) = .ok shape := by
  induction shape with
  | nil => simp [ShapeCodec.decodeDims]
  | cons d ds ih =>
    have hd : d < 2 ^ 63 := h d (List.mem_cons_self _ _)
    have hd8 : d < 256 ^ 8 := by omega
    have ih2 := ih (fun x hx => h x (List.mem_cons_of_mem _ hx))
    simp only [List.length_cons, ShapeCodec.decodeDims, ShapeCodec.encodeDims,
      List.append_assoc]
    rw [decodeFixedLE_take_encodeFixedLE _ _ _ hd8, drop_encodeFixedLE, ih2]
    simp [length_encodeFixedLE]
    omega

/-- The ShapeCodec reads back a supported shape. -/
theorem ShapeCodec_decode_encode (shape : List Nat) (h : SupportedShape shape) :
    ShapeCodec.decode (ShapeCodec.encode shape) = .ok shape := by
  have hr8 : shape.length < 256 ^ 8 := by have := h.1; omega
  have := decodeDims_encodeDims shape [] h.2
  rw [List.append_nil] at this
  simp only [ShapeCodec.decode, ShapeCodec.encode]
  rw [decodeFixedLE_take_encodeFixedLE _ _ _ hr8, drop_encodeFixedLE, this]
  simp [length_encodeFixedLE]
  exact h.1

/-- The decoder reads back what the encoder wrote. -/
theorem ValueDecoder_deserialize_serialize (registry : DtypeRegistry) (tensor : Tensor)
    (value : v0.Value) (hs : SupportedShape tensor.shape)
    (h : ValueEncoder.serialize registry tensor = .ok value) :
    ValueDecoder.deserialize registry value = .ok tensor := by
  simp only [ValueEncoder.serialize] at h
  cases hc : registry.encoding_for tensor.dtype with
  | error e => simp [hc] at h
  | ok codec =>
    simp only [hc] at h
    split at h
    · cases h
    · rename_i hlen
      cases hp : BufferCodec.encode codec tensor.buf with
      | error e => simp [hp] at h
      | ok payload =>
        simp only [hp] at h
        cases h
        have hb := BufferCodec_decode_encode codec tensor.buf payload hp
        have hlen2 : tensor.buf.length = num_elements tensor.shape := by
          simpa using hlen
        rw [hlen2] at hb
        simp [ValueDecoder.deserialize, hc, ShapeCodec_decode_encode _ hs, hb]

end tensorflow_federated

/-!
Round trip of the bound functions
-/

namespace serialization_bindings

open tensorflow python tensorflow_federated

/-- No codec error is reported as the OK status. -/
theorem CodecError_toStatus_not_ok (e : CodecError) : e.toStatus.ok = false := by
  cases e <;> rfl

/-- The bound `serialize_tensor_value` over the modelled codec succeeds exactly
with the encoder's wire value. -/
theorem serialize_tensor_value_specCodec (registry : DtypeRegistry) (t : Tensor)
    (w : v0.Value)
    (h : tensorflow_federated.serialize_tensor_value (specCodec registry) t = .ok w) :
    ValueEncoder.serialize registry t = .ok w := by
  simp only [tensorflow_federated.serialize_tensor_value, specCodec, SerializeTensorValue,
    TFF_TRY] at h
  cases hs : ValueEncoder.serialize registry t with
  | error e => simp [hs, CodecError_toStatus_not_ok] at h
  | ok v =>
    simp only [hs] at h
    split at h
    · cases h
    · cases h; rfl

/-- Claim C1. For every tensor `t` of a supported shape, over any registry: if
the bound `serialize_tensor_value` succeeds on `t` with wire value `w`, the
bound `deserialize_tensor_value` succeeds on `w` and yields `t` itself (same
element type, shape and element bit patterns). From Python: an array that
`load` turns into `t` is serialized to `w`, and deserializing `w` hands `t` to
`cast`, whose array is returned, or whose error is raised when it returns the
null handle. -/
theorem tensor_value_roundtrip (registry : DtypeRegistry) (t : Tensor) (w : v0.Value)
    (hshape : SupportedShape t.shape)
    (h : tensorflow_federated.serialize_tensor_value (specCodec registry) t = .ok w) :
    tensorflow_federated.deserialize_tensor_value (specCodec registry) w = .ok t ∧
    (∀ (api : TensorFlowApi) (src : handle) (st : Interpreter),
      (pybind11.detail.load api default src st).1 = true →
      (pybind11.detail.load api default src st).2.1 = t →
      (serialize_tensor_value api (specCodec registry) src st).1 = .returned w) ∧
    (∀ (api : TensorFlowApi) (st : Interpreter) (array : PyObject),
      (pybind11.detail.cast api t st).1 = some array →
      (deserialize_tensor_value api (specCodec registry) w st).1 = .returned array) ∧
    (∀ (api : TensorFlowApi) (st : Interpreter),
      (pybind11.detail.cast api t st).1 = none →
      (deserialize_tensor_value api (specCodec registry) w st).1 =
        .raised (pybind11.detail.cast api t st).2.pyErr) := by
  have hd : tensorflow_federated.deserialize_tensor_value (specCodec registry) w = .ok t := by
    have hs := serialize_tensor_value_specCodec registry t w h
    simp [tensorflow_federated.deserialize_tensor_value, specCodec, DeserializeTensorValue,
      ValueDecoder_deserialize_serialize registry t w hshape hs]
  refine ⟨hd, ?_, ?_, ?_⟩
  · intro api src st hl hv
    simp only [serialize_tensor_value]
    rw [show pybind11.detail.load api default src st =
      (true, t, (pybind11.detail.load api default src st).2.2) from by
        rw [← hl, ← hv]]
    simp [h]
  · intro api st array hc
    simp only [deserialize_tensor_value, hd]
    rw [show pybind11.detail.cast api t st =
      (some array, (pybind11.detail.cast api t st).2) from by rw [← hc]]
  · intro api st hc
    simp only [deserialize_tensor_value, hd]
    rw [show pybind11.detail.cast api t st =
      (none, (pybind11.detail.cast api t st).2) from by rw [← hc]]

/-- Claim C1 on the listed registry: the 2×3 float32 tensor of the
specification's scenario (24 bytes of payload), a rank-0 tensor, a string
tensor with a zero-sized dimension (empty payload) and a string tensor with
two elements; and the 2×3 array through both module functions on the sample
API. -/
theorem tensor_value_roundtrip_witness :
    (tensorflow_federated.serialize_tensor_value (specCodec listedRegistry) sample.tensor23 =
        .ok sample.value23 ∧
      sample.value23.payload.length = 24 ∧
      tensorflow_federated.deserialize_tensor_value (specCodec listedRegistry) sample.value23 =
        .ok sample.tensor23) ∧
    (tensorflow_federated.serialize_tensor_value (specCodec listedRegistry)
        sample.tensorScalar = .ok ⟨9, [0, 0, 0, 0, 0, 0, 0, 0], [5, 0, 0, 0, 0, 0, 0, 0]⟩ ∧
      tensorflow_federated.deserialize_tensor_value (specCodec listedRegistry)
        ⟨9, [0, 0, 0, 0, 0, 0, 0, 0], [5, 0, 0, 0, 0, 0, 0, 0]⟩ = .ok sample.tensorScalar) ∧
    (tensorflow_federated.serialize_tensor_value (specCodec listedRegistry)
        sample.tensorEmpty =
        .ok ⟨7, [1, 0, 0, 0, 0, 0, 0, 0, 0, 0, 0, 0, 0, 0, 0, 0], []⟩ ∧
      tensorflow_federated.deserialize_tensor_value (specCodec listedRegistry)
        ⟨7, [1, 0, 0, 0, 0, 0, 0, 0, 0, 0, 0, 0, 0, 0, 0, 0], []⟩ = .ok sample.tensorEmpty) ∧
    (tensorflow_federated.serialize_tensor_value (specCodec listedRegistry)
        sample.tensorStrings =
        .ok ⟨7, [1, 0, 0, 0, 0, 0, 0, 0, 2, 0, 0, 0, 0, 0, 0, 0],
          [2, 0, 0, 0, 0, 0, 0, 0, 104, 105, 0, 0, 0, 0, 0, 0, 0, 0]⟩ ∧
      tensorflow_federated.deserialize_tensor_value (specCodec listedRegistry)
        ⟨7, [1, 0, 0, 0, 0, 0, 0, 0, 2, 0, 0, 0, 0, 0, 0, 0],
          [2, 0, 0, 0, 0, 0, 0, 0, 104, 105, 0, 0, 0, 0, 0, 0, 0, 0]⟩ =
        .ok sample.tensorStrings) ∧
    (serialize_tensor_value sample.api (specCodec listedRegistry) (some sample.array23)
        sample.idle).1 = .returned sample.value23 ∧
    (deserialize_tensor_value sample.api (specCodec listedRegistry) sample.value23
        sample.idle).1 = .returned sample.array23 :=
  have h23 := tensor_value_roundtrip listedRegistry sample.tensor23 sample.value23
    (by decide) (by decide)
  ⟨⟨by decide, by decide, h23.1⟩,
    ⟨by decide, (tensor_value_roundtrip listedRegistry sample.tensorScalar _
      (by decide) (by decide)).1⟩,
    ⟨by decide, (tensor_value_roundtrip listedRegistry sample.tensorEmpty _
      (by decide) (by decide)).1⟩,
    ⟨by decide, (tensor_value_roundtrip listedRegistry sample.tensorStrings _
      (by decide) (by decide)).1⟩,
    h23.2.1 sample.api (some sample.array23) sample.idle (by decide) (by decide),
    h23.2.2.1 sample.api sample.idle sample.array23 (by decide)⟩

end serialization_bindings
